import Mathlib

/-!
Verification development for the node_bpf userspace eBPF map library.

We give a shallow embedding, in Lean, of the map-interface layer of the
library: the count-reconciliation helpers of `lib/map/common.ts`
(`fixCount`, `checkAllProcessed`), the `FDRef` native handle of
`src/binding.cc`, the `RawMap` operations (`map.ts`), the `RawArrayMap`
operations (`array.ts`), the `RawQueueMap` operations (`queue.ts`) and the
`createMap` entry point (`common.ts`).

The kernel syscall boundary is modelled as explicit inputs: each operation
receives the status (and output-buffer contents) the kernel would produce,
and returns an `Except` value (thrown JS errors become `.error`) together
with the list of syscalls it issued. JS `Buffer`s are byte lists, JS
`number` is `ℚ` where non-integers matter and `Nat`/`Int` elsewhere, and
`undefined` is `Option.none`.
-/

namespace NodeBpf

/-- Bytes of a JS `Buffer`. -/
abbrev Buf := List Nat

/-- Errno constants used by the library (`os.constants.errno` / native). -/
def ENOENT : Int := 2

def EFAULT : Int := 14

def EINVAL : Int := 22

/-- `MapFlags.NUMA_NODE` from `enums.ts` (`1 << 2`). -/
def NUMA_NODE : Int := 4

/-- `MapType` values from `enums.ts` needed here. -/
def MapTypeARRAY : Nat := 2

def MapTypeQUEUE : Nat := 22

def MapTypeSTACK : Nat := 23

/-- JS exceptions thrown by the library: plain `Error`, `RangeError`
(from `checkU32` / `_checkIndex`), and `BPFError` (from `checkStatus`,
carrying errno, operation name and optional processed count). -/
inductive JsError where
  | error (msg : String)
  | rangeError (msg : String)
  | bpfError (errno : Int) (operation : String) (count : Option Nat)
  deriving Repr, DecidableEq

/-- Render a JS `number | undefined` the way template literals do. -/
def optToString (x : Option Nat) : String :=
  match x with
  | none => "undefined"
  | some n => toString n

/-- Embedding of `checkStatus` (`exception.ts`): throw a `BPFError` when
the status is negative. -/
def checkStatus (operation : String) (status : Int) (count : Option Nat := none) :
    Except JsError Unit :=
  if status < 0 then .error (.bpfError (-status) operation count) else .ok ()

/-- Embedding of `fixCount` (`lib/map/common.ts` lines 276-283): when the
status is negative but the kernel-reported count equals the requested
batch size, the count was not actually updated; treat it as unknown for
`EFAULT` and as `0` otherwise. -/
def fixCount (count : Option Nat) (batchSize : Nat) (status : Int) : Option Nat :=
  if status < 0 ∧ count = some batchSize then
    if status = -EFAULT then none else some 0
  else count

/-- Embedding of `checkAllProcessed` (`lib/map/common.ts` lines 285-290). -/
def checkAllProcessed (count : Option Nat) (batchSize : Nat) : Except JsError Unit :=
  if count ≠ some batchSize then
    .error (.error ("Assertion failed: " ++ optToString count ++ " of "
      ++ toString batchSize ++ " entries processed"))
  else .ok ()

/-! ### `FDRef` (`src/binding.cc`, lines 64-119)

The native handle object: it stores an `int fd`, where `-1` means closed.
`Close` is a no-op when already closed, otherwise issues a `close(fd)`
syscall and sets the field to `-1`. The `fd` accessor throws
"FD was closed" when the field is `-1`. We return the list of `close`
syscalls issued so idempotence is observable. -/

structure FDRef where
  fd : Int
  deriving Repr, DecidableEq

/-- Embedding of `FDRef::Close`: returns the new handle state and the
list of file descriptors passed to the `close` syscall. -/
def FDRef.close (r : FDRef) : FDRef × List Int :=
  if r.fd = -1 then (r, []) else (⟨-1⟩, [r.fd])

/-- Embedding of `FDRef::GetFD` (the `fd` accessor). -/
def FDRef.getFD (r : FDRef) : Except JsError Int :=
  if r.fd = -1 then .error (.error "FD was closed") else .ok r.fd

/-- A `MapRef` as consumed by the map interfaces: the `FDRef` native
object with the (frozen) map info fields assigned onto it
(`createMapRef` in `common.ts`). `maxEntries` is kept as a JS number
(`ℚ`) because `RawArrayMap` re-validates it with `checkU32`. -/
structure MapRefM extends FDRef where
  type : Nat
  keySize : Nat
  valueSize : Nat
  maxEntries : ℚ
  deriving Repr, DecidableEq

/-- Syscalls a map operation can issue at the kernel boundary. -/
inductive Syscall where
  | lookup (fd : Int)
  | lookupDelete (fd : Int)
  | update (fd : Int)
  | deleteElem (fd : Int)
  | nextKey (fd : Int)
  | lookupBatch (fd : Int) (batchSize : Nat)
  | updateBatch (fd : Int) (n : Nat)
  | deleteBatch (fd : Int) (n : Nat)
  | freeze (fd : Int)
  deriving Repr, DecidableEq

/-! ### `RawMap` single-entry operations (`map.ts`, lines 295-356) -/

/-- Embedding of `RawMap._checkBuf`: reject buffers of the wrong length. -/
def checkBuf (size : Nat) (x : Buf) : Except JsError Buf :=
  if x.length ≠ size then
    .error (.error ("Passed " ++ toString x.length ++ " byte buffer, expected "
      ++ toString size))
  else .ok x

/-- Embedding of `RawMap._getBuf`: allocate a zeroed buffer when none is
supplied, otherwise check the supplied one. -/
def getBuf (size : Nat) (x : Option Buf) : Except JsError Buf :=
  match x with
  | none => .ok (List.replicate size 0)
  | some b => checkBuf size b

/-- Embedding of `RawMap.get`. `status` is the kernel status of
`mapLookupElem` and `kout` the value bytes the kernel wrote into `out`. -/
def RawMap.get (ref : MapRefM) (key : Buf) (out : Option Buf := none)
    (status : Int := 0) (kout : Buf := []) :
    Except JsError (Option Buf) × List Syscall :=
  match checkBuf ref.keySize key with
  | .error e => (.error e, [])
  | .ok _ =>
    match getBuf ref.valueSize out with
    | .error e => (.error e, [])
    | .ok _ =>
      match ref.getFD with
      | .error e => (.error e, [])
      | .ok fd =>
        if status = -ENOENT then (.ok none, [.lookup fd])
        else
          match checkStatus "bpf_map_lookup_elem_flags" status with
          | .error e => (.error e, [.lookup fd])
          | .ok _ => (.ok (some kout), [.lookup fd])

/-- Embedding of `RawMap.getDelete`. -/
def RawMap.getDelete (ref : MapRefM) (key : Buf) (out : Option Buf := none)
    (status : Int := 0) (kout : Buf := []) :
    Except JsError (Option Buf) × List Syscall :=
  match checkBuf ref.keySize key with
  | .error e => (.error e, [])
  | .ok _ =>
    match getBuf ref.valueSize out with
    | .error e => (.error e, [])
    | .ok _ =>
      match ref.getFD with
      | .error e => (.error e, [])
      | .ok fd =>
        if status = -ENOENT then (.ok none, [.lookupDelete fd])
        else
          match checkStatus "bpf_map_lookup_and_delete_elem" status with
          | .error e => (.error e, [.lookupDelete fd])
          | .ok _ => (.ok (some kout), [.lookupDelete fd])

/-- Embedding of `RawMap.set`. -/
def RawMap.set (ref : MapRefM) (key : Buf) (value : Buf) (status : Int := 0) :
    Except JsError Unit × List Syscall :=
  match checkBuf ref.keySize key with
  | .error e => (.error e, [])
  | .ok _ =>
    match checkBuf ref.valueSize value with
    | .error e => (.error e, [])
    | .ok _ =>
      match ref.getFD with
      | .error e => (.error e, [])
      | .ok fd =>
        match checkStatus "bpf_map_update_elem" status with
        | .error e => (.error e, [.update fd])
        | .ok _ => (.ok (), [.update fd])

/-- Embedding of `RawMap.delete`. -/
def RawMap.delete (ref : MapRefM) (key : Buf) (status : Int := 0) :
    Except JsError Bool × List Syscall :=
  match checkBuf ref.keySize key with
  | .error e => (.error e, [])
  | .ok _ =>
    match ref.getFD with
    | .error e => (.error e, [])
    | .ok fd =>
      if status = -ENOENT then (.ok false, [.deleteElem fd])
      else
        match checkStatus "bpf_map_delete_elem" status with
        | .error e => (.error e, [.deleteElem fd])
        | .ok _ => (.ok true, [.deleteElem fd])

/-! ### `RawMap` batched operations (`map.ts`, lines 361-422) -/

/-- Check a list of buffers against a size, failing at the first bad one
(the `entries.map(x => this._kBuf(...))` pattern). -/
def checkBufs (size : Nat) (bufs : List Buf) : Except JsError Unit :=
  match bufs with
  | [] => .ok ()
  | b :: rest =>
    match checkBuf size b with
    | .error e => .error e
    | .ok _ => checkBufs size rest

/-- Kernel response to `mapUpdateBatch` / `mapDeleteBatch`: status and
the count written back (JS sees `number | undefined`). -/
structure UpdateBatchResp where
  status : Int
  count : Option Nat
  deriving Repr, DecidableEq

/-- Kernel response to one `mapLookupBatch` call: status, written-back
count, and the bytes the kernel wrote into the keys / values buffers. -/
structure LookupBatchResp where
  status : Int
  count : Option Nat
  keysOut : Buf
  valuesOut : Buf
  deriving Repr, DecidableEq

/-- `buf.slice(off, off + len)` on a byte buffer (clamps at the end). -/
def bufSlice (b : Buf) (off len : Nat) : Buf :=
  (b.drop off).take len

/-- Embedding of `sliceBuffer` (`util.ts`). -/
def sliceBuffer (x : Buf) (count size : Nat) : List Buf :=
  (List.range count).map fun i => bufSlice x (i * size) size

/-- The entry-extraction loop of `RawMap.getBatch`: `count` pairs of
key/value slices copied out of the kernel-written buffers. -/
def extractEntries (keySize valueSize c : Nat) (keysOut valuesOut : Buf) :
    List (Buf × Buf) :=
  (List.range c).map fun i =>
    (bufSlice keysOut (i * keySize) keySize, bufSlice valuesOut (i * valueSize) valueSize)

/-- The count used by one `getBatch` iteration: `fixCount` is applied
unless the status is `-ENOENT` (`map.ts` lines 377-380, kept as-is from
the kernel's hashtab exception). -/
def getBatchCount (batchSize : Nat) (r : LookupBatchResp) : Option Nat :=
  if r.status = -ENOENT then r.count else fixCount r.count batchSize r.status

/-- The batches yielded by one `getBatch` iteration (`if (count > 0)`;
in JS `undefined > 0` is false, so an unknown count yields nothing). -/
def getBatchYield (keySize valueSize batchSize : Nat) (r : LookupBatchResp) :
    List (List (Buf × Buf)) :=
  match getBatchCount batchSize r with
  | none => []
  | some c =>
    if 0 < c then [extractEntries keySize valueSize c r.keysOut r.valuesOut] else []

/-- The `while (true)` loop of `RawMap.getBatch`, driven by the list of
kernel responses (one per `mapLookupBatch` call); returns the yielded
batches, the terminal error if any, and the syscalls issued. An empty
response list models a kernel that never terminates the loop, which the
real generator cannot observe; we mark it with a distinguished error. -/
def RawMap.getBatchGo (keySize valueSize batchSize : Nat) (fd : Int) :
    List LookupBatchResp → List (List (Buf × Buf)) × Option JsError × List Syscall
  | [] => ([], some (.error "model: kernel response stream exhausted"), [])
  | r :: rest =>
    let yielded := getBatchYield keySize valueSize batchSize r
    if r.status = -ENOENT then (yielded, none, [.lookupBatch fd batchSize])
    else if r.status < 0 then
      (yielded, some (.bpfError (-r.status) "bpf_map_lookup_batch" none),
        [.lookupBatch fd batchSize])
    else
      let rec' := RawMap.getBatchGo keySize valueSize batchSize fd rest
      (yielded ++ rec'.1, rec'.2.1, .lookupBatch fd batchSize :: rec'.2.2)

/-- Embedding of `RawMap.getBatch` (whole-run semantics of the
generator). -/
def RawMap.getBatch (ref : MapRefM) (batchSize : Nat)
    (resps : List LookupBatchResp) :
    List (List (Buf × Buf)) × Option JsError × List Syscall :=
  if batchSize = 0 then ([], some (.error "Invalid batch size"), [])
  else
    match ref.getFD with
    | .error e => ([], some e, [])
    | .ok fd => RawMap.getBatchGo ref.keySize ref.valueSize batchSize fd resps

/-- Embedding of `RawMap.setBatch`. -/
def RawMap.setBatch (ref : MapRefM) (entries : List (Buf × Buf))
    (resp : UpdateBatchResp) : Except JsError Unit × List Syscall :=
  match checkBufs ref.keySize (entries.map Prod.fst) with
  | .error e => (.error e, [])
  | .ok _ =>
    match checkBufs ref.valueSize (entries.map Prod.snd) with
    | .error e => (.error e, [])
    | .ok _ =>
      match ref.getFD with
      | .error e => (.error e, [])
      | .ok fd =>
        let count := fixCount resp.count entries.length resp.status
        match checkStatus "bpf_map_update_batch" resp.status count with
        | .error e => (.error e, [.updateBatch fd entries.length])
        | .ok _ =>
          match checkAllProcessed count entries.length with
          | .error e => (.error e, [.updateBatch fd entries.length])
          | .ok _ => (.ok (), [.updateBatch fd entries.length])

/-- Embedding of `RawMap.deleteBatch`. -/
def RawMap.deleteBatch (ref : MapRefM) (keys : List Buf)
    (resp : UpdateBatchResp) : Except JsError Unit × List Syscall :=
  match checkBufs ref.keySize keys with
  | .error e => (.error e, [])
  | .ok _ =>
    match ref.getFD with
    | .error e => (.error e, [])
    | .ok fd =>
      let count := fixCount resp.count keys.length resp.status
      match checkStatus "bpf_map_delete_batch" resp.status count with
      | .error e => (.error e, [.deleteBatch fd keys.length])
      | .ok _ =>
        match checkAllProcessed count keys.length with
        | .error e => (.error e, [.deleteBatch fd keys.length])
        | .ok _ => (.ok (), [.deleteBatch fd keys.length])

/-! ### `RawMap.keys` iteration (`map.ts`, lines 427-446)

The generator is

    let key = this.getNextKey(start)
    while (key !== undefined) { const next = this.getNextKey(key); yield key; key = next }

We model it twice over an abstracted `BPF_MAP_GET_NEXT_KEY` kernel:
once as an event trace (kernel fetches interleaved with yields), and once
against a stateful kernel whose key list shrinks when the caller deletes
each yielded key. -/

/-- Shared tail of `RawMap.getNextKey` once the start key (if any) has
been size-checked. -/
def RawMap.getNextKeyTail (ref : MapRefM) (out : Option Buf) (status : Int)
    (kout : Buf) : Except JsError (Option Buf) × List Syscall :=
  match getBuf ref.keySize out with
  | .error e => (.error e, [])
  | .ok _ =>
    match ref.getFD with
    | .error e => (.error e, [])
    | .ok fd =>
      if status = -ENOENT then (.ok none, [.nextKey fd])
      else
        match checkStatus "bpf_map_get_next_key" status with
        | .error e => (.error e, [.nextKey fd])
        | .ok _ => (.ok (some kout), [.nextKey fd])

/-- Embedding of `RawMap.getNextKey` (single call, explicit kernel
response): the start key is size-checked only when one is passed. -/
def RawMap.getNextKey (ref : MapRefM) (key : Option Buf) (out : Option Buf := none)
    (status : Int := 0) (kout : Buf := []) :
    Except JsError (Option Buf) × List Syscall :=
  match key with
  | some k =>
    match checkBuf ref.keySize k with
    | .error e => (.error e, [])
    | .ok _ => RawMap.getNextKeyTail ref out status kout
  | none => RawMap.getNextKeyTail ref out status kout

/-- Observable events of a `keys()` run: a `getNextKey` kernel fetch
with its argument, or a key yielded to the caller. -/
inductive KeysEvent where
  | fetch (arg : Option Buf)
  | yield (k : Buf)
  deriving Repr, DecidableEq

/-- The loop body of `RawMap.keys` over an abstract next-key kernel
(`next x = none` models `-ENOENT`), as an event trace. `fuel` bounds the
number of iterations so runs over a live kernel stay finite. -/
def RawMap.keysAux (next : Option Buf → Option Buf) :
    Option Buf → Nat → List KeysEvent
  | none, _ => []
  | some _, 0 => []
  | some k, fuel + 1 =>
    .fetch (some k) :: .yield k :: RawMap.keysAux next (next (some k)) fuel

/-- Event trace of a full `RawMap.keys(start)` run: the initial fetch of
the first key, then the loop. -/
def RawMap.keysEvents (next : Option Buf → Option Buf) (start : Option Buf)
    (fuel : Nat) : List KeysEvent :=
  .fetch start :: RawMap.keysAux next (next start) fuel

/-- The key following the first occurrence of `k` in the kernel's
iteration order. -/
def nextAfter : List Buf → Buf → Option Buf
  | [], _ => none
  | x :: xs, k => if x = k then xs.head? else nextAfter xs k

/-- Stateful model of the kernel's `BPF_MAP_GET_NEXT_KEY`: `s` is the
map's current key list in iteration order; looking up after a key that
is no longer present restarts from the first key (the hashtab
behaviour the library documents). -/
def kernelNextKey (s : List Buf) (k : Option Buf) : Option Buf :=
  match k with
  | none => s.head?
  | some key => if key ∈ s then nextAfter s key else s.head?

/-- Keys yielded by the `RawMap.keys` loop when the kernel state `s`
never changes. -/
def RawMap.keysRun (s : List Buf) : Option Buf → Nat → List Buf
  | none, _ => []
  | some _, 0 => []
  | some k, fuel + 1 => k :: RawMap.keysRun s (kernelNextKey s (some k)) fuel

/-- Keys yielded by the `RawMap.keys` loop when the caller deletes each
key right after it is yielded. Exactly as in the source, the successor
is fetched from the current state *before* the yield (and hence before
the deletion). -/
def RawMap.keysRunDelete (t : List Buf) (key : Option Buf) (fuel : Nat) :
    List Buf :=
  match key, fuel with
  | none, _ => []
  | some _, 0 => []
  | some k, fuel + 1 =>
    k :: RawMap.keysRunDelete (t.erase k) (kernelNextKey t (some k)) fuel

/-! ### `RawArrayMap` (`array.ts`) -/

/-- Little-endian bytes of one `uint32` array index
(`asUint8Array(Uint32Array.of(i))`). -/
def u32le (n : Nat) : Buf :=
  [n % 256, n / 256 % 256, n / 65536 % 256, n / 16777216 % 256]

/-- The `_allIndexes` buffer built once by the `RawArrayMap` constructor:
`asUint8Array(new Uint32Array(length).map((_, i) => i))`, i.e. the
ascending dense indexes `0, 1, ..., length - 1` as `uint32` bytes. -/
def denseIndexes (length : Nat) : Buf :=
  (List.map u32le (List.range length)).flatten

/-- JS `x === (x >>> 0)`: `x` is an integer in `[0, 2^32)`. -/
def validU32 (x : ℚ) : Prop :=
  x.den = 1 ∧ 0 ≤ x.num ∧ x.num < 4294967296

instance (x : ℚ) : Decidable (validU32 x) := by
  unfold validU32; exact inferInstance

/-- Embedding of `checkU32` (`util.ts` lines 49-53), on JS numbers. -/
def checkU32 (x : ℚ) : Except JsError Nat :=
  if validU32 x then .ok x.num.toNat
  else .error (.rangeError (toString x ++ " is not a valid u32"))

/-- State of a constructed `RawArrayMap`: the bound ref, the validated
length, and the precomputed `_allIndexes` buffer. -/
structure ArrState where
  ref : MapRefM
  length : Nat
  _allIndexes : Buf
  deriving Repr, DecidableEq

/-- Embedding of the `RawArrayMap` constructor (`array.ts` lines
142-149). The source prints the map-type *name* in the error message; we
print its number. -/
def RawArrayMap.make (ref : MapRefM) : Except JsError ArrState :=
  if ref.type ≠ MapTypeARRAY then
    .error (.error ("Expected array map, got type " ++ toString ref.type))
  else
    match checkU32 ref.maxEntries with
    | .error e => .error e
    | .ok len => .ok ⟨ref, len, denseIndexes len⟩

/-- Embedding of `RawArrayMap._checkIndex` (`array.ts` lines 167-172). -/
def ArrState.checkIndex (st : ArrState) (x : ℚ) : Except JsError Nat :=
  match checkU32 x with
  | .error e => .error e
  | .ok n =>
    if st.length ≤ n then
      .error (.rangeError ("Invalid index " ++ toString x ++ " for array of length "
        ++ toString st.length))
    else .ok n

/-- Embedding of `RawArrayMap.get`. Arrays always have every index, so
there is no `-ENOENT` branch. -/
def RawArrayMap.get (st : ArrState) (key : ℚ) (out : Option Buf := none)
    (status : Int := 0) (kout : Buf := []) : Except JsError Buf × List Syscall :=
  match st.checkIndex key with
  | .error e => (.error e, [])
  | .ok _ =>
    match getBuf st.ref.valueSize out with
    | .error e => (.error e, [])
    | .ok _ =>
      match st.ref.getFD with
      | .error e => (.error e, [])
      | .ok fd =>
        match checkStatus "bpf_map_lookup_elem_flags" status with
        | .error e => (.error e, [.lookup fd])
        | .ok _ => (.ok kout, [.lookup fd])

/-- Embedding of `RawArrayMap.set`. -/
def RawArrayMap.set (st : ArrState) (key : ℚ) (value : Buf) (status : Int := 0) :
    Except JsError Unit × List Syscall :=
  match st.checkIndex key with
  | .error e => (.error e, [])
  | .ok _ =>
    match checkBuf st.ref.valueSize value with
    | .error e => (.error e, [])
    | .ok _ =>
      match st.ref.getFD with
      | .error e => (.error e, [])
      | .ok fd =>
        match checkStatus "bpf_map_update_elem" status with
        | .error e => (.error e, [.update fd])
        | .ok _ => (.ok (), [.update fd])

/-- Embedding of `RawArrayMap.getAll` (`array.ts` lines 265-278): one
`mapLookupBatch` call sized to the whole array, then the count and
key-buffer consistency checks. -/
def RawArrayMap.getAll (st : ArrState) (resp : LookupBatchResp) :
    Except JsError (List Buf) × List Syscall :=
  match st.ref.getFD with
  | .error e => (.error e, [])
  | .ok fd =>
    if resp.status ≠ -ENOENT ∧ resp.status < 0 then
      (.error (.bpfError (-resp.status) "bpf_map_lookup_batch" none),
        [Syscall.lookupBatch fd st.length])
    else if resp.count ≠ some st.length then
      (.error (.error ("Expected " ++ toString st.length ++ " elements but received "
        ++ optToString resp.count)), [Syscall.lookupBatch fd st.length])
    else if resp.keysOut ≠ st._allIndexes then
      (.error (.error "Non-sequential indexes"), [Syscall.lookupBatch fd st.length])
    else (.ok (sliceBuffer resp.valuesOut st.length st.ref.valueSize),
      [Syscall.lookupBatch fd st.length])

/-- Embedding of `RawArrayMap.setAll` (`array.ts` lines 280-290). -/
def RawArrayMap.setAll (st : ArrState) (values : List Buf)
    (resp : UpdateBatchResp) : Except JsError Unit × List Syscall :=
  if values.length ≠ st.length then
    (.error (.error ("Expected " ++ toString st.length ++ " values, got "
      ++ toString values.length)), [])
  else
    match checkBufs st.ref.valueSize values with
    | .error e => (.error e, [])
    | .ok _ =>
      match st.ref.getFD with
      | .error e => (.error e, [])
      | .ok fd =>
        let count := fixCount resp.count st.length resp.status
        match checkStatus "bpf_map_update_batch" resp.status count with
        | .error e => (.error e, [.updateBatch fd st.length])
        | .ok _ =>
          match checkAllProcessed count st.length with
          | .error e => (.error e, [.updateBatch fd st.length])
          | .ok _ => (.ok (), [.updateBatch fd st.length])

/-! ### `RawQueueMap` (`queue.ts`) -/

/-- State of a constructed `RawQueueMap`. -/
structure QState where
  ref : MapRefM
  deriving Repr, DecidableEq

/-- Embedding of the `RawQueueMap` constructor (`queue.ts` lines
108-114; map-type name printed as its number, as for arrays). -/
def RawQueueMap.make (ref : MapRefM) : Except JsError QState :=
  if ref.type ≠ MapTypeQUEUE ∧ ref.type ≠ MapTypeSTACK then
    .error (.error ("Expected queue or stack map, got type " ++ toString ref.type))
  else if ref.keySize ≠ 0 then
    .error (.error "Assertion failed: keySize must be 0")
  else .ok ⟨ref⟩

/-- Embedding of `RawQueueMap.peek` (lookup with an empty key buffer). -/
def RawQueueMap.peek (st : QState) (out : Option Buf := none)
    (status : Int := 0) (kout : Buf := []) :
    Except JsError (Option Buf) × List Syscall :=
  match getBuf st.ref.valueSize out with
  | .error e => (.error e, [])
  | .ok _ =>
    match st.ref.getFD with
    | .error e => (.error e, [])
    | .ok fd =>
      if status = -ENOENT then (.ok none, [.lookup fd])
      else
        match checkStatus "bpf_map_lookup_elem_flags" status with
        | .error e => (.error e, [.lookup fd])
        | .ok _ => (.ok (some kout), [.lookup fd])

/-- Embedding of `RawQueueMap.pop`. -/
def RawQueueMap.pop (st : QState) (out : Option Buf := none)
    (status : Int := 0) (kout : Buf := []) :
    Except JsError (Option Buf) × List Syscall :=
  match getBuf st.ref.valueSize out with
  | .error e => (.error e, [])
  | .ok _ =>
    match st.ref.getFD with
    | .error e => (.error e, [])
    | .ok fd =>
      if status = -ENOENT then (.ok none, [.lookupDelete fd])
      else
        match checkStatus "bpf_map_lookup_and_delete_elem" status with
        | .error e => (.error e, [.lookupDelete fd])
        | .ok _ => (.ok (some kout), [.lookupDelete fd])

/-! ### `createMap` (`lib/map/common.ts`, lines 178-208)

`createMap` mutates a *copy* of the caller's descriptor (the
`desc = { flags: 0, ...desc }` line) and, for a map-in-map definition,
recursively creates the inner map and closes it in a `finally`. To make
object identity and mutation observable we model JS objects as entries of
an explicit heap: the caller's `MapDef` is a heap index, the copy is a
freshly appended entry, and field assignments are `List.set` on the heap.
The kernel is a stream of statuses `kern : Nat → Int` consumed one per
kernel call (`createMap`, then `getMapInfo` inside `createMapRef`). -/

/-- The `innerMap` field of a `MapDef`: absent, a raw descriptor number,
an existing `MapRef` (modelled by its open fd), or a nested full `MapDef`
(a reference to another heap object). -/
inductive InnerV where
  | absent
  | num (fd : Nat)
  | ref (fd : Nat)
  | ptr (id : Nat)
  deriving Repr, DecidableEq

/-- A `MapDef` object on the heap (the fields `createMap` reads or
writes; `type`, `name` and `ifindex` are passed through untouched and
omitted). -/
structure MapDefObj where
  keySize : ℚ
  valueSize : ℚ
  maxEntries : ℚ
  flags : Option Int
  numaNode : Option Nat
  innerMap : InnerV
  deriving Repr, DecidableEq

def defaultObj : MapDefObj := ⟨0, 0, 0, none, none, .absent⟩

/-- Events observable at the boundary during `createMap`: the request
object passed to the native creation call, and the close of a transient
inner-map handle. -/
inductive CreateEvent where
  | create (req : MapDefObj)
  | closeInner (fd : Nat)
  deriving Repr, DecidableEq

/-- Execution state threaded through `createMap`: the object heap, the
boundary events so far, and the index of the next kernel response. -/
structure CMState where
  heap : List MapDefObj
  events : List CreateEvent
  callIdx : Nat
  deriving Repr, DecidableEq

/-- The copy `desc = { flags: 0, ...desc }` followed by
`if (desc.numaNode !== undefined) desc.flags |= MapFlags.NUMA_NODE`. -/
def prepFlags (o : MapDefObj) : MapDefObj :=
  let o1 : MapDefObj := { o with flags := some (o.flags.getD 0) }
  match o1.numaNode with
  | none => o1
  | some _ => { o1 with flags := some (Int.lor (o1.flags.getD 0) NUMA_NODE) }

/-- Field assignment `desc.innerMap = fd` on the heap object `cid`. -/
def setInner (s : CMState) (cid : Nat) (v : InnerV) : CMState :=
  { s with heap := s.heap.set cid { s.heap.getD cid defaultObj with innerMap := v } }

/-- Embedding of `createMapRef(fd, { transfer: true, parameters })` as
called from `createMap`: one `getMapInfo` kernel call; `-EINVAL` falls
back to the supplied parameters, any other negative status throws. -/
def createMapRefT (kern : Nat → Int) (s : CMState) (fd : Nat) :
    Except JsError Nat × CMState :=
  let infoStatus := kern s.callIdx
  let s1 : CMState := { s with callIdx := s.callIdx + 1 }
  if infoStatus = -EINVAL then (.ok fd, s1)
  else if infoStatus < 0 then
    (.error (.bpfError (-infoStatus) "bpf_obj_get_info_by_fd" none), s1)
  else (.ok fd, s1)

/-- The tail of `createMap` from the `native.createMap(desc)` call on:
issue the creation call with the prepared object `cid`, check the
status, wrap the returned descriptor — and, as the `finally` clause,
close the transient inner handle (when one was created) on every path. -/
def finishCreate (kern : Nat → Int) (s : CMState) (cid : Nat)
    (innerFd : Option Nat) : Except JsError Nat × CMState :=
  let req := s.heap.getD cid defaultObj
  let status := kern s.callIdx
  let s1 : CMState :=
    { s with events := s.events ++ [.create req], callIdx := s.callIdx + 1 }
  let r :=
    if status < 0 then
      (Except.error (JsError.bpfError (-status) "bpf_create_map_xattr" none), s1)
    else createMapRefT kern s1 status.toNat
  match innerFd with
  | none => r
  | some f => (r.1, { r.2 with events := r.2.events ++ [.closeInner f] })

/-- Embedding of `createMap`, recursing on nested inner-map definitions.
`fuel` bounds the recursion depth (the JS recursion is bounded by the
object graph; a cyclic graph would not terminate there either). A
`MapRef` inner object contributes its fd directly and is not closed; a
nested definition is created first, its fd substituted, and the
transient handle closed by the `finally`. -/
def createMapGo (kern : Nat → Int) : Nat → CMState → Nat → Except JsError Nat × CMState
  | 0, s, _ => (.error (.error "model: recursion fuel exhausted"), s)
  | fuel + 1, s, descId =>
    let obj := s.heap.getD descId defaultObj
    match checkU32 obj.keySize with
    | .error e => (.error e, s)
    | .ok _ =>
      match checkU32 obj.valueSize with
      | .error e => (.error e, s)
      | .ok _ =>
        match checkU32 obj.maxEntries with
        | .error e => (.error e, s)
        | .ok _ =>
          let cid := s.heap.length
          let s1 : CMState := { s with heap := s.heap ++ [prepFlags obj] }
          match obj.innerMap with
          | .absent => finishCreate kern s1 cid none
          | .num _ => finishCreate kern s1 cid none
          | .ref f => finishCreate kern (setInner s1 cid (.num f)) cid none
          | .ptr pid =>
            match createMapGo kern fuel s1 pid with
            | (.error e, s2) => (.error e, s2)
            | (.ok f, s2) => finishCreate kern (setInner s2 cid (.num f)) cid (some f)

/-- Entry point: run `createMap` on the descriptor at heap index
`descId` with an empty event log. -/
def createMap (kern : Nat → Int) (heap : List MapDefObj) (descId : Nat)
    (fuel : Nat) : Except JsError Nat × CMState :=
  createMapGo kern fuel ⟨heap, [], 0⟩ descId

/-! ## Concrete handles used by the witnesses -/

/-- An open 4-byte-key / 4-byte-value hash-map handle. -/
def refOpen : MapRefM := { fd := 3, type := 1, keySize := 4, valueSize := 4, maxEntries := 5 }

/-- An open `ARRAY` handle with one entry. -/
def arrRef1 : MapRefM := { fd := 4, type := 2, keySize := 4, valueSize := 4, maxEntries := 1 }

/-- The constructed `RawArrayMap` state over `arrRef1`. -/
def arrSt1 : ArrState := ⟨arrRef1, 1, denseIndexes 1⟩

/-- An open `ARRAY` handle with five entries. -/
def arrRef5 : MapRefM := { fd := 6, type := 2, keySize := 4, valueSize := 4, maxEntries := 5 }

/-- The constructed `RawArrayMap` state over `arrRef5`. -/
def arrSt5 : ArrState := ⟨arrRef5, 5, denseIndexes 5⟩

/-- An open `QUEUE` handle. -/
def qRef : MapRefM := { fd := 5, type := 22, keySize := 0, valueSize := 4, maxEntries := 5 }

/-- The constructed `RawQueueMap` state over `qRef`. -/
def qSt : QState := ⟨qRef⟩

def k4 : Buf := [9, 0, 0, 0]

def v4 : Buf := [7, 0, 0, 0]

/-! ## Helper lemmas -/

deriving instance DecidableEq for Except

theorem getFD_of_open {r : FDRef} (h : r.fd ≠ -1) : r.getFD = .ok r.fd := by
  simp [FDRef.getFD, h]

theorem fixCount_full {n : Nat} {status : Int} (h : status < 0) :
    fixCount (some n) n status = if status = -EFAULT then none else some 0 := by
  simp [fixCount, h]

/-! ## Claims -/

/-- C1 counterexample: in `getBatch`, a kernel response whose status is
the negative error `-ENOENT` and whose reported count equals the
requested batch size is NOT reconciled to `0` (nor to "unknown"): the
ENOENT exception in `RawMap.getBatch` keeps the kernel-reported count,
and the full batch is yielded before the iterator ends. This refutes the
claim's "recomputed ... to 0 for any other error" for `getBatch`. -/
theorem c1_counterexample :
    ((-ENOENT < 0) ∧ ((-ENOENT : Int) ≠ -EFAULT)) ∧
    getBatchCount 1 ⟨-ENOENT, some 1, k4, v4⟩ = some 1 ∧
    getBatchCount 1 ⟨-ENOENT, some 1, k4, v4⟩ ≠ some 0 ∧
    RawMap.getBatch refOpen 1 [⟨-ENOENT, some 1, k4, v4⟩] =
      ([[(k4, v4)]], none, [.lookupBatch 3 1]) := by decide

/-- C1 (amended): after every batch call, if the kernel status is
negative and the reported count equals the requested batch size, the
count is recomputed — to unknown (`undefined`) for `EFAULT`, and to `0`
for any other error — in `setBatch`, `deleteBatch` and `setAll`
unconditionally, and in `getBatch` only when the status is not
`-ENOENT`; an `-ENOENT` status keeps the kernel-reported count. An
`EFAULT` response with `count == batchSize` is reconciled to an unknown
count and never treated as full success (`getBatch` yields nothing from
it). -/
theorem c1_batch_count_reconciliation
    (ref : MapRefM) (st : ArrState) (entries : List (Buf × Buf))
    (keys values : List Buf) (status : Int) (bs : Nat) (kb vb : Buf)
    (hfd : ref.fd ≠ -1) (hsfd : st.ref.fd ≠ -1)
    (hek : checkBufs ref.keySize (entries.map Prod.fst) = .ok ())
    (hev : checkBufs ref.valueSize (entries.map Prod.snd) = .ok ())
    (hkk : checkBufs ref.keySize keys = .ok ())
    (hvl : values.length = st.length)
    (hvv : checkBufs st.ref.valueSize values = .ok ())
    (hstat : status < 0) :
    (fixCount (some bs) bs status = if status = -EFAULT then none else some 0)
    ∧ ((RawMap.setBatch ref entries ⟨status, some entries.length⟩).1 =
        .error (.bpfError (-status) "bpf_map_update_batch"
          (if status = -EFAULT then none else some 0)))
    ∧ ((RawMap.deleteBatch ref keys ⟨status, some keys.length⟩).1 =
        .error (.bpfError (-status) "bpf_map_delete_batch"
          (if status = -EFAULT then none else some 0)))
    ∧ ((RawArrayMap.setAll st values ⟨status, some st.length⟩).1 =
        .error (.bpfError (-status) "bpf_map_update_batch"
          (if status = -EFAULT then none else some 0)))
    ∧ (status ≠ -ENOENT →
        getBatchCount bs ⟨status, some bs, kb, vb⟩ =
          if status = -EFAULT then none else some 0)
    ∧ (getBatchYield ref.keySize ref.valueSize bs ⟨-EFAULT, some bs, kb, vb⟩ = []) := by
  refine ⟨fixCount_full hstat, ?_, ?_, ?_, ?_, ?_⟩
  · simp [RawMap.setBatch, hek, hev, getFD_of_open hfd, fixCount_full hstat,
      checkStatus, hstat]
  · simp [RawMap.deleteBatch, hkk, getFD_of_open hfd, fixCount_full hstat,
      checkStatus, hstat]
  · simp [RawArrayMap.setAll, hvl, hvv, getFD_of_open hsfd, fixCount_full hstat,
      checkStatus, hstat]
  · intro h
    simp [getBatchCount, h, fixCount_full hstat]
  · simp [getBatchYield, getBatchCount, fixCount]
    norm_num [ENOENT, EFAULT]

/-- C1 witness: the amended reconciliation at a concrete `-EINVAL`
response with a full count, over concrete open handles. -/
theorem c1_batch_count_reconciliation_witness :
    (((-22 : Int) < 0 ∧ refOpen.fd ≠ -1 ∧ ([v4].length = arrSt1.length)) ∧
      checkBufs refOpen.keySize ([(k4, v4)].map Prod.fst) = .ok ()) ∧
    ((fixCount (some 1) 1 (-22) = if (-22 : Int) = -EFAULT then none else some 0)
    ∧ ((RawMap.setBatch refOpen [(k4, v4)] ⟨-22, some [(k4, v4)].length⟩).1 =
        .error (.bpfError (-(-22)) "bpf_map_update_batch"
          (if (-22 : Int) = -EFAULT then none else some 0)))
    ∧ ((RawMap.deleteBatch refOpen [k4] ⟨-22, some [k4].length⟩).1 =
        .error (.bpfError (-(-22)) "bpf_map_delete_batch"
          (if (-22 : Int) = -EFAULT then none else some 0)))
    ∧ ((RawArrayMap.setAll arrSt1 [v4] ⟨-22, some arrSt1.length⟩).1 =
        .error (.bpfError (-(-22)) "bpf_map_update_batch"
          (if (-22 : Int) = -EFAULT then none else some 0)))
    ∧ ((-22 : Int) ≠ -ENOENT →
        getBatchCount 1 ⟨-22, some 1, k4, v4⟩ =
          if (-22 : Int) = -EFAULT then none else some 0)
    ∧ (getBatchYield refOpen.keySize refOpen.valueSize 1 ⟨-EFAULT, some 1, k4, v4⟩ = [])) :=
  ⟨⟨by decide, by decide⟩,
    c1_batch_count_reconciliation refOpen arrSt1 [(k4, v4)] [k4] [v4] (-22) 1 k4 v4
      (by decide) (by decide) (by decide) (by decide) (by decide) (by decide)
      (by decide) (by decide)⟩

/-- C2: `setBatch` and `deleteBatch` return normally only when the
reconciled processed count equals the number of requested entries; when
no kernel error was surfaced (`status ≥ 0`) and the reconciled count
still differs, they throw the internal assertion error from
`checkAllProcessed`. -/
theorem c2_batch_all_processed
    (ref : MapRefM) (entries : List (Buf × Buf)) (keys : List Buf)
    (resp : UpdateBatchResp) (hfd : ref.fd ≠ -1)
    (hek : checkBufs ref.keySize (entries.map Prod.fst) = .ok ())
    (hev : checkBufs ref.valueSize (entries.map Prod.snd) = .ok ())
    (hkk : checkBufs ref.keySize keys = .ok ()) :
    ((RawMap.setBatch ref entries resp).1 = .ok () →
      fixCount resp.count entries.length resp.status = some entries.length)
    ∧ ((RawMap.deleteBatch ref keys resp).1 = .ok () →
      fixCount resp.count keys.length resp.status = some keys.length)
    ∧ (0 ≤ resp.status →
        fixCount resp.count entries.length resp.status ≠ some entries.length →
        (RawMap.setBatch ref entries resp).1 = .error (.error
          ("Assertion failed: "
            ++ optToString (fixCount resp.count entries.length resp.status)
            ++ " of " ++ toString entries.length ++ " entries processed")))
    ∧ (0 ≤ resp.status →
        fixCount resp.count keys.length resp.status ≠ some keys.length →
        (RawMap.deleteBatch ref keys resp).1 = .error (.error
          ("Assertion failed: "
            ++ optToString (fixCount resp.count keys.length resp.status)
            ++ " of " ++ toString keys.length ++ " entries processed"))) := by
  by_cases hs : resp.status < 0
  · refine ⟨?_, ?_, ?_, ?_⟩ <;>
      simp [RawMap.setBatch, RawMap.deleteBatch, hek, hev, hkk,
        getFD_of_open hfd, checkStatus, hs]
  · refine ⟨?_, ?_, ?_, ?_⟩
    · intro hok
      by_contra hc
      simp [RawMap.setBatch, hek, hev, getFD_of_open hfd, checkStatus, hs,
        checkAllProcessed, hc] at hok
    · intro hok
      by_contra hc
      simp [RawMap.deleteBatch, hkk, getFD_of_open hfd, checkStatus, hs,
        checkAllProcessed, hc] at hok
    · intro _ hc
      simp [RawMap.setBatch, hek, hev, getFD_of_open hfd, checkStatus, hs,
        checkAllProcessed, hc]
    · intro _ hc
      simp [RawMap.deleteBatch, hkk, getFD_of_open hfd, checkStatus, hs,
        checkAllProcessed, hc]

/-- C2 witness: a concrete successful batch (all processed) and a
concrete partial-success response that trips the assertion. -/
theorem c2_batch_all_processed_witness :
    (refOpen.fd ≠ -1 ∧ checkBufs refOpen.keySize ([(k4, v4)].map Prod.fst) = .ok ()) ∧
    (((RawMap.setBatch refOpen [(k4, v4)] ⟨0, some 0⟩).1 = .ok () →
      fixCount (some 0) [(k4, v4)].length 0 = some [(k4, v4)].length)
    ∧ ((RawMap.deleteBatch refOpen [k4] ⟨0, some 0⟩).1 = .ok () →
      fixCount (some 0) [k4].length 0 = some [k4].length)
    ∧ ((0 : Int) ≤ 0 →
        fixCount (some 0) [(k4, v4)].length 0 ≠ some [(k4, v4)].length →
        (RawMap.setBatch refOpen [(k4, v4)] ⟨0, some 0⟩).1 = .error (.error
          ("Assertion failed: " ++ optToString (fixCount (some 0) [(k4, v4)].length 0)
            ++ " of " ++ toString [(k4, v4)].length ++ " entries processed")))
    ∧ ((0 : Int) ≤ 0 →
        fixCount (some 0) [k4].length 0 ≠ some [k4].length →
        (RawMap.deleteBatch refOpen [k4] ⟨0, some 0⟩).1 = .error (.error
          ("Assertion failed: " ++ optToString (fixCount (some 0) [k4].length 0)
            ++ " of " ++ toString [k4].length ++ " entries processed")))) :=
  ⟨⟨by decide, by decide⟩,
    c2_batch_all_processed refOpen [(k4, v4)] [k4] ⟨0, some 0⟩
      (by decide) (by decide) (by decide) (by decide)⟩

/-- A closed handle (as left behind by a successful `close()`). -/
def refClosed : MapRefM := { fd := -1, type := 1, keySize := 4, valueSize := 4, maxEntries := 5 }

theorem closed_fd (r : FDRef) : ((FDRef.close r).1).fd = -1 := by
  unfold FDRef.close
  split_ifs with h
  · exact h
  · rfl

/-- C3: after a successful `close()`, a second (or any later) `close()`
is a no-op — same state, no `close` syscall, no throw — and any access
to the `fd` property (hence any map operation through the handle) fails
with the "FD was closed" resource-closed error. -/
theorem c3_close_idempotent
    (r : FDRef) (ref : MapRefM) (key value : Buf)
    (href : ref.toFDRef = (FDRef.close r).1)
    (hkey : key.length = ref.keySize) (hval : value.length = ref.valueSize) :
    (FDRef.close (FDRef.close r).1 = ((FDRef.close r).1, []))
    ∧ (FDRef.getFD (FDRef.close r).1 = .error (.error "FD was closed"))
    ∧ (RawMap.get ref key none 0 [] = (.error (.error "FD was closed"), []))
    ∧ (RawMap.getDelete ref key none 0 [] = (.error (.error "FD was closed"), []))
    ∧ (RawMap.set ref key value 0 = (.error (.error "FD was closed"), []))
    ∧ (RawMap.delete ref key 0 = (.error (.error "FD was closed"), [])) := by
  have hfd := closed_fd r
  have hrfd : ref.toFDRef.fd = -1 := by rw [href]; exact hfd
  refine ⟨?_, ?_, ?_, ?_, ?_, ?_⟩
  · by_cases h : r.fd = -1 <;> simp [FDRef.close, h]
  · simp [FDRef.getFD, hfd]
  · simp [RawMap.get, checkBuf, hkey, getBuf, FDRef.getFD, hrfd]
  · simp [RawMap.getDelete, checkBuf, hkey, getBuf, FDRef.getFD, hrfd]
  · simp [RawMap.set, checkBuf, hkey, hval, FDRef.getFD, hrfd]
  · simp [RawMap.delete, checkBuf, hkey, FDRef.getFD, hrfd]

/-- C3 witness: closing the concrete open handle `⟨3⟩` and re-closing,
plus operations through the resulting closed handle. -/
theorem c3_close_idempotent_witness :
    (refClosed.toFDRef = (FDRef.close ⟨3⟩).1 ∧ k4.length = refClosed.keySize) ∧
    ((FDRef.close (FDRef.close ⟨3⟩).1 = ((FDRef.close ⟨3⟩).1, []))
    ∧ (FDRef.getFD (FDRef.close ⟨3⟩).1 = .error (.error "FD was closed"))
    ∧ (RawMap.get refClosed k4 none 0 [] = (.error (.error "FD was closed"), []))
    ∧ (RawMap.getDelete refClosed k4 none 0 [] = (.error (.error "FD was closed"), []))
    ∧ (RawMap.set refClosed k4 v4 0 = (.error (.error "FD was closed"), []))
    ∧ (RawMap.delete refClosed k4 0 = (.error (.error "FD was closed"), []))) :=
  ⟨⟨by decide, by decide⟩,
    c3_close_idempotent ⟨3⟩ refClosed k4 v4 (by decide) (by decide) (by decide)⟩

/-- C6: a key buffer whose length differs from `keySize`, or a value
buffer whose length differs from `valueSize`, makes `get`, `set`,
`getDelete` and `delete` throw the descriptive size error with an empty
syscall list — no kernel call is issued. -/
theorem c6_buffer_size_checked
    (ref : MapRefM) (key value : Buf) (status : Int) (kout : Buf) :
    (key.length ≠ ref.keySize →
      (RawMap.get ref key none status kout =
        (.error (.error ("Passed " ++ toString key.length ++ " byte buffer, expected "
          ++ toString ref.keySize)), []))
      ∧ (RawMap.getDelete ref key none status kout =
        (.error (.error ("Passed " ++ toString key.length ++ " byte buffer, expected "
          ++ toString ref.keySize)), []))
      ∧ (RawMap.set ref key value status =
        (.error (.error ("Passed " ++ toString key.length ++ " byte buffer, expected "
          ++ toString ref.keySize)), []))
      ∧ (RawMap.delete ref key status =
        (.error (.error ("Passed " ++ toString key.length ++ " byte buffer, expected "
          ++ toString ref.keySize)), [])))
    ∧ (key.length = ref.keySize → value.length ≠ ref.valueSize →
      (RawMap.set ref key value status =
        (.error (.error ("Passed " ++ toString value.length ++ " byte buffer, expected "
          ++ toString ref.valueSize)), []))
      ∧ (RawMap.get ref key (some value) status kout =
        (.error (.error ("Passed " ++ toString value.length ++ " byte buffer, expected "
          ++ toString ref.valueSize)), []))
      ∧ (RawMap.getDelete ref key (some value) status kout =
        (.error (.error ("Passed " ++ toString value.length ++ " byte buffer, expected "
          ++ toString ref.valueSize)), []))) := by
  constructor
  · intro h
    refine ⟨?_, ?_, ?_, ?_⟩ <;>
      simp [RawMap.get, RawMap.getDelete, RawMap.set, RawMap.delete, checkBuf, h]
  · intro h1 h2
    refine ⟨?_, ?_, ?_⟩ <;>
      simp [RawMap.get, RawMap.getDelete, RawMap.set, checkBuf, getBuf, h1, h2]

/-- C6 witness: a 3-byte key and a 2-byte value against the concrete
4-byte/4-byte handle. -/
theorem c6_buffer_size_checked_witness :
    (([9, 9, 9] : Buf).length ≠ refOpen.keySize
      ∧ k4.length = refOpen.keySize ∧ ([1, 2] : Buf).length ≠ refOpen.valueSize) ∧
    (RawMap.get refOpen [9, 9, 9] none 0 [] =
      (.error (.error ("Passed " ++ toString ([9, 9, 9] : Buf).length
        ++ " byte buffer, expected " ++ toString refOpen.keySize)), [])) ∧
    (RawMap.set refOpen k4 [1, 2] 0 =
      (.error (.error ("Passed " ++ toString ([1, 2] : Buf).length
        ++ " byte buffer, expected " ++ toString refOpen.valueSize)), [])) :=
  ⟨by decide,
    ((c6_buffer_size_checked refOpen [9, 9, 9] [1, 2] 0 []).1 (by decide)).1,
    ((c6_buffer_size_checked refOpen k4 [1, 2] 0 []).2 (by decide) (by decide)).1⟩

/-- C7: a kernel `-ENOENT` status yields the absent result (`none` for
`get`/`getDelete` and queue `peek`/`pop`, `false` for `delete`) with no
error; any other negative status surfaces as a `BPFError` naming the
failing operation. -/
theorem c7_enoent_is_absent
    (ref : MapRefM) (qst : QState) (key : Buf) (status : Int) (kout : Buf)
    (hkey : key.length = ref.keySize) (hfd : ref.fd ≠ -1)
    (hqfd : qst.ref.fd ≠ -1) :
    (status = -ENOENT →
      (RawMap.get ref key none status kout).1 = .ok none
      ∧ (RawMap.getDelete ref key none status kout).1 = .ok none
      ∧ (RawMap.delete ref key status).1 = .ok false
      ∧ (RawQueueMap.peek qst none status kout).1 = .ok none
      ∧ (RawQueueMap.pop qst none status kout).1 = .ok none)
    ∧ (status < 0 → status ≠ -ENOENT →
      (RawMap.get ref key none status kout).1 =
        .error (.bpfError (-status) "bpf_map_lookup_elem_flags" none)
      ∧ (RawMap.getDelete ref key none status kout).1 =
        .error (.bpfError (-status) "bpf_map_lookup_and_delete_elem" none)
      ∧ (RawMap.delete ref key status).1 =
        .error (.bpfError (-status) "bpf_map_delete_elem" none)
      ∧ (RawQueueMap.peek qst none status kout).1 =
        .error (.bpfError (-status) "bpf_map_lookup_elem_flags" none)
      ∧ (RawQueueMap.pop qst none status kout).1 =
        .error (.bpfError (-status) "bpf_map_lookup_and_delete_elem" none)) := by
  constructor
  · intro h
    subst h
    refine ⟨?_, ?_, ?_, ?_, ?_⟩ <;>
      simp [RawMap.get, RawMap.getDelete, RawMap.delete, RawQueueMap.peek,
        RawQueueMap.pop, checkBuf, hkey, getBuf, getFD_of_open hfd,
        getFD_of_open hqfd]
  · intro h1 h2
    refine ⟨?_, ?_, ?_, ?_, ?_⟩ <;>
      simp [RawMap.get, RawMap.getDelete, RawMap.delete, RawQueueMap.peek,
        RawQueueMap.pop, checkBuf, hkey, getBuf, getFD_of_open hfd,
        getFD_of_open hqfd, h2, checkStatus, h1]

/-- C7 witness: the concrete handles at `-ENOENT` and at `-EINVAL`. -/
theorem c7_enoent_is_absent_witness :
    (k4.length = refOpen.keySize ∧ refOpen.fd ≠ -1 ∧ qSt.ref.fd ≠ -1) ∧
    ((RawMap.get refOpen k4 none (-ENOENT) v4).1 = .ok none
      ∧ (RawMap.getDelete refOpen k4 none (-ENOENT) v4).1 = .ok none
      ∧ (RawMap.delete refOpen k4 (-ENOENT)).1 = .ok false
      ∧ (RawQueueMap.peek qSt none (-ENOENT) v4).1 = .ok none
      ∧ (RawQueueMap.pop qSt none (-ENOENT) v4).1 = .ok none) ∧
    ((RawMap.get refOpen k4 none (-22) v4).1 =
        .error (.bpfError (-(-22)) "bpf_map_lookup_elem_flags" none)
      ∧ (RawMap.getDelete refOpen k4 none (-22) v4).1 =
        .error (.bpfError (-(-22)) "bpf_map_lookup_and_delete_elem" none)
      ∧ (RawMap.delete refOpen k4 (-22)).1 =
        .error (.bpfError (-(-22)) "bpf_map_delete_elem" none)
      ∧ (RawQueueMap.peek qSt none (-22) v4).1 =
        .error (.bpfError (-(-22)) "bpf_map_lookup_elem_flags" none)
      ∧ (RawQueueMap.pop qSt none (-22) v4).1 =
        .error (.bpfError (-(-22)) "bpf_map_lookup_and_delete_elem" none)) :=
  ⟨by decide,
    (c7_enoent_is_absent refOpen qSt k4 (-ENOENT) v4
      (by decide) (by decide) (by decide)).1 rfl,
    (c7_enoent_is_absent refOpen qSt k4 (-22) v4
      (by decide) (by decide) (by decide)).2 (by decide) (by decide)⟩

/-- C8: array indexes are validated before any kernel call: a JS number
that is not a valid `u32` (non-integer, negative, or ≥ 2^32) fails
`checkU32` with its `RangeError`, and a valid `u32` at or beyond the
array length fails `_checkIndex` with the invalid-index `RangeError`;
in both cases no syscall is issued, and a `RangeError` is distinct from
the kernel invalid-argument error (`BPFError`). -/
theorem c8_array_index_validated
    (st : ArrState) (x : ℚ) (value : Buf) (status : Int) (kout : Buf) :
    (¬ validU32 x →
      (RawArrayMap.get st x none status kout =
        (.error (.rangeError (toString x ++ " is not a valid u32")), []))
      ∧ (RawArrayMap.set st x value status =
        (.error (.rangeError (toString x ++ " is not a valid u32")), [])))
    ∧ (∀ n : Nat, x = (n : ℚ) → validU32 x → st.length ≤ n →
      (RawArrayMap.get st x none status kout =
        (.error (.rangeError ("Invalid index " ++ toString x ++ " for array of length "
          ++ toString st.length)), []))
      ∧ (RawArrayMap.set st x value status =
        (.error (.rangeError ("Invalid index " ++ toString x ++ " for array of length "
          ++ toString st.length)), [])))
    ∧ (∀ (m : String) (e : Int) (o : String) (c : Option Nat),
        JsError.rangeError m ≠ JsError.bpfError e o c) := by
  refine ⟨?_, ?_, ?_⟩
  · intro h
    constructor <;>
      simp [RawArrayMap.get, RawArrayMap.set, ArrState.checkIndex, checkU32, h]
  · intro n hx hv hlen
    have hck : checkU32 x = .ok n := by
      subst hx
      simp [checkU32, hv]
    constructor <;>
      simp [RawArrayMap.get, RawArrayMap.set, ArrState.checkIndex, hck, hlen]
  · intro m e o c
    simp

/-- C8 witness: for the length-5 array, index `-1` and the non-integer
`1/5` fail `u32` validation, and index `5` fails the range check; all
without a syscall. -/
theorem c8_array_index_validated_witness :
    ((¬ validU32 (-1 : ℚ)) ∧ (¬ validU32 (Rat.divInt 1 5))
      ∧ validU32 ((5 : Nat) : ℚ) ∧ arrSt5.length ≤ 5) ∧
    (RawArrayMap.get arrSt5 (-1) none 0 [] =
      (.error (.rangeError (toString (-1 : ℚ) ++ " is not a valid u32")), [])) ∧
    (RawArrayMap.get arrSt5 (Rat.divInt 1 5) none 0 [] =
      (.error (.rangeError (toString (Rat.divInt 1 5) ++ " is not a valid u32")), [])) ∧
    (RawArrayMap.get arrSt5 ((5 : Nat) : ℚ) none 0 [] =
      (.error (.rangeError ("Invalid index " ++ toString ((5 : Nat) : ℚ)
        ++ " for array of length " ++ toString arrSt5.length)), [])) ∧
    (RawArrayMap.set arrSt5 ((5 : Nat) : ℚ) v4 0 =
      (.error (.rangeError ("Invalid index " ++ toString ((5 : Nat) : ℚ)
        ++ " for array of length " ++ toString arrSt5.length)), [])) :=
  ⟨⟨by decide, by decide, by decide, by decide⟩,
    ((c8_array_index_validated arrSt5 (-1) v4 0 []).1 (by decide)).1,
    ((c8_array_index_validated arrSt5 (Rat.divInt 1 5) v4 0 []).1 (by decide)).1,
    ((c8_array_index_validated arrSt5 ((5 : Nat) : ℚ) v4 0 []).2.1 5 rfl
      (by decide) (by decide)).1,
    ((c8_array_index_validated arrSt5 ((5 : Nat) : ℚ) v4 0 []).2.1 5 rfl
      (by decide) (by decide)).2⟩

/-- C5: `getAll` issues a single batch-lookup syscall sized to the full
array (the `checkU32`-validated `maxEntries`), succeeds only when the
kernel reported exactly `length` entries and wrote back exactly the
ascending dense index buffer precomputed at construction (in which case
it returns the value slices), and otherwise — absent a kernel error —
throws the corresponding consistency error. -/
theorem c5_getall_dense_check
    (ref : MapRefM) (st : ArrState) (resp : LookupBatchResp)
    (hmk : RawArrayMap.make ref = .ok st) (hfd : st.ref.fd ≠ -1) :
    (st._allIndexes = (List.map u32le (List.range st.length)).flatten)
    ∧ (checkU32 ref.maxEntries = .ok st.length)
    ∧ ((RawArrayMap.getAll st resp).2 = [Syscall.lookupBatch st.ref.fd st.length])
    ∧ (∀ vs, (RawArrayMap.getAll st resp).1 = .ok vs →
        resp.count = some st.length ∧ resp.keysOut = st._allIndexes
        ∧ vs = sliceBuffer resp.valuesOut st.length st.ref.valueSize)
    ∧ ((0 ≤ resp.status ∨ resp.status = -ENOENT) → resp.count ≠ some st.length →
        (RawArrayMap.getAll st resp).1 = .error (.error ("Expected "
          ++ toString st.length ++ " elements but received " ++ optToString resp.count)))
    ∧ ((0 ≤ resp.status ∨ resp.status = -ENOENT) → resp.count = some st.length →
        resp.keysOut ≠ st._allIndexes →
        (RawArrayMap.getAll st resp).1 = .error (.error "Non-sequential indexes")) := by
  unfold RawArrayMap.make at hmk
  split_ifs at hmk with ht
  cases hck : checkU32 ref.maxEntries with
    | error e => rw [hck] at hmk; exact absurd hmk (by simp)
    | ok len =>
      rw [hck] at hmk
      injection hmk with h
      subst h
      refine ⟨rfl, ?_, ?_, ?_, ?_, ?_⟩
      · rfl
      · simp only [RawArrayMap.getAll, getFD_of_open hfd]
        split_ifs <;> rfl
      · intro vs h
        simp only [RawArrayMap.getAll, getFD_of_open hfd] at h
        split_ifs at h with h1 h2 h3
        all_goals
          first
          | exact Except.noConfusion h
          | exact ⟨not_not.mp h2, not_not.mp h3, by injection h with h4; exact h4.symm⟩
      · intro hok hc
        have h1 : ¬(resp.status ≠ -ENOENT ∧ resp.status < 0) := by
          rcases hok with h | h
          · exact fun hh => absurd hh.2 (by omega)
          · exact fun hh => hh.1 h
        simp [RawArrayMap.getAll, getFD_of_open hfd, h1, hc]
      · intro hok hc hk
        have h1 : ¬(resp.status ≠ -ENOENT ∧ resp.status < 0) := by
          rcases hok with h | h
          · exact fun hh => absurd hh.2 (by omega)
          · exact fun hh => hh.1 h
        simp [RawArrayMap.getAll, getFD_of_open hfd, h1, hc, hk]

/-- C5 witness: a successful `getAll` over the one-entry array, with
the kernel returning the dense index buffer. -/
theorem c5_getall_dense_check_witness :
    (RawArrayMap.make arrRef1 = .ok arrSt1 ∧ arrSt1.ref.fd ≠ -1) ∧
    ((arrSt1._allIndexes = (List.map u32le (List.range arrSt1.length)).flatten)
    ∧ (checkU32 arrRef1.maxEntries = .ok arrSt1.length)
    ∧ ((RawArrayMap.getAll arrSt1 ⟨0, some 1, denseIndexes 1, v4⟩).2 =
        [Syscall.lookupBatch arrSt1.ref.fd arrSt1.length])
    ∧ (∀ vs, (RawArrayMap.getAll arrSt1 ⟨0, some 1, denseIndexes 1, v4⟩).1 = .ok vs →
        (some 1 : Option Nat) = some arrSt1.length
        ∧ denseIndexes 1 = arrSt1._allIndexes
        ∧ vs = sliceBuffer v4 arrSt1.length arrSt1.ref.valueSize)
    ∧ (((0 : Int) ≤ 0 ∨ (0 : Int) = -ENOENT) → (some 1 : Option Nat) ≠ some arrSt1.length →
        (RawArrayMap.getAll arrSt1 ⟨0, some 1, denseIndexes 1, v4⟩).1 =
          .error (.error ("Expected " ++ toString arrSt1.length
            ++ " elements but received " ++ optToString (some 1))))
    ∧ (((0 : Int) ≤ 0 ∨ (0 : Int) = -ENOENT) → (some 1 : Option Nat) = some arrSt1.length →
        denseIndexes 1 ≠ arrSt1._allIndexes →
        (RawArrayMap.getAll arrSt1 ⟨0, some 1, denseIndexes 1, v4⟩).1 =
          .error (.error "Non-sequential indexes"))) :=
  ⟨⟨by decide, by decide⟩,
    c5_getall_dense_check arrRef1 arrSt1 ⟨0, some 1, denseIndexes 1, v4⟩
      (by decide) (by decide)⟩

/-! ## C4: prefetch-before-yield in `keys()` -/

theorem keysAux_cons (next : Option Buf → Option Buf) (k0 : Buf) (n : Nat) :
    RawMap.keysAux next (some k0) (n + 1) =
      .fetch (some k0) :: .yield k0 :: RawMap.keysAux next (next (some k0)) n := by
  rfl

theorem keysAux_yield_prefetch (next : Option Buf → Option Buf) :
    ∀ (fuel : Nat) (key : Option Buf) (i : Nat) (k : Buf),
      (RawMap.keysAux next key fuel)[i]? = some (.yield k) →
      ∃ j, j < i ∧ (RawMap.keysAux next key fuel)[j]? = some (.fetch (some k)) := by
  intro fuel
  induction fuel with
  | zero =>
    intro key i k h
    cases key <;> simp [RawMap.keysAux] at h
  | succ n ih =>
    intro key i k h
    cases key with
    | none => simp [RawMap.keysAux] at h
    | some k0 =>
      rw [keysAux_cons] at h
      match i with
      | 0 => simp at h
      | 1 =>
        simp at h
        refine ⟨0, by omega, ?_⟩
        rw [keysAux_cons]
        simp [h]
      | (m + 2) =>
        rw [List.getElem?_cons_succ, List.getElem?_cons_succ] at h
        obtain ⟨j, hj, hjf⟩ := ih (next (some k0)) m k h
        refine ⟨j + 2, by omega, ?_⟩
        rw [keysAux_cons, List.getElem?_cons_succ, List.getElem?_cons_succ]
        exact hjf

theorem nextAfter_append (p q : List Buf) (k : Buf) (hk : k ∉ p) :
    nextAfter (p ++ k :: q) k = q.head? := by
  induction p with
  | nil => simp [nextAfter]
  | cons a p ih =>
    have ha : ¬(a = k) := fun h => hk (by simp [h])
    have hk' : k ∉ p := fun h => hk (by simp [h])
    simp [nextAfter, ha, ih hk']

theorem nextAfter_some (s : List Buf) :
    ∀ (key k : Buf), s.Nodup → nextAfter s key = some k →
      ∃ p q, s = p ++ k :: q ∧ k ∉ p := by
  induction s with
  | nil => intro key k _ h; simp [nextAfter] at h
  | cons a t ih =>
    intro key k hs h
    obtain ⟨hat, hnt⟩ := List.nodup_cons.mp hs
    by_cases hak : a = key
    · rw [nextAfter, if_pos hak] at h
      cases t with
      | nil => simp at h
      | cons k' q =>
        have hk : k' = k := by simpa using h
        refine ⟨[a], q, by simp [hk], ?_⟩
        have hak2 : a ≠ k := fun hh => hat (by simp [hk, hh])
        simp [hak2.symm]
    · rw [nextAfter, if_neg hak] at h
      obtain ⟨p, q, hpq, hkp⟩ := ih key k hnt h
      refine ⟨a :: p, q, by simp [hpq], ?_⟩
      have hkt : k ∈ t := by rw [hpq]; simp
      have hka : k ≠ a := fun hh => hat (hh ▸ hkt)
      simp [hka, hkp]

theorem kernelNextKey_decomp (s : List Buf) (hs : s.Nodup) (x : Option Buf) (k : Buf)
    (h : kernelNextKey s x = some k) : ∃ p q, s = p ++ k :: q ∧ k ∉ p := by
  have hhead : s.head? = some k → ∃ p q, s = p ++ k :: q ∧ k ∉ p := by
    intro hh
    cases s with
    | nil => simp at hh
    | cons a t =>
      have : k = a := by simpa using hh.symm
      exact ⟨[], t, by simp [this], by simp⟩
  cases x with
  | none => exact hhead h
  | some key =>
    rw [kernelNextKey] at h
    by_cases hm : key ∈ s
    · rw [if_pos hm] at h
      exact nextAfter_some s key k hs h
    · rw [if_neg hm] at h
      exact hhead h

theorem kernelNextKey_of_decomp (p q : List Buf) (k : Buf) (hk : k ∉ p) :
    kernelNextKey (p ++ k :: q) (some k) = q.head? := by
  have hmem : k ∈ p ++ k :: q := by simp
  rw [kernelNextKey, if_pos hmem]
  exact nextAfter_append p q k hk

theorem keysRunDelete_eq_aux (s : List Buf) (hs : s.Nodup) :
    ∀ (fuel : Nat) (key : Option Buf) (t : List Buf),
      (key = none ∨ ∃ k p p' q, key = some k ∧ s = p ++ k :: q ∧ t = p' ++ k :: q
        ∧ p'.Sublist p ∧ k ∉ p ∧ k ∉ p') →
      RawMap.keysRunDelete t key fuel = RawMap.keysRun s key fuel := by
  intro fuel
  induction fuel with
  | zero =>
    intro key t _
    cases key <;> rfl
  | succ n ih =>
    intro key t hinv
    rcases hinv with rfl | ⟨k, p, p', q, rfl, hsplit, htsplit, hsub, hkp, hkp'⟩
    · rfl
    · have hts : kernelNextKey t (some k) = q.head? := by
        rw [htsplit]; exact kernelNextKey_of_decomp p' q k hkp'
      have hss : kernelNextKey s (some k) = q.head? := by
        rw [hsplit]; exact kernelNextKey_of_decomp p q k hkp
      show k :: RawMap.keysRunDelete (t.erase k) (kernelNextKey t (some k)) n
          = k :: RawMap.keysRun s (kernelNextKey s (some k)) n
      rw [hts, hss]
      congr 1
      apply ih
      have hterase : t.erase k = p' ++ q := by
        rw [htsplit, List.erase_append_right _ hkp', List.erase_cons_head]
      cases hq : q with
      | nil => left; simp [hq]
      | cons k' q' =>
        right
        have hnd := hs
        rw [hsplit, hq] at hnd
        obtain ⟨hnp, hncons, hdisj⟩ := List.nodup_append.mp hnd
        have hk'p : k' ∉ p := fun hm => hdisj hm (by simp)
        have hk'k : k' ≠ k := by
          rcases List.nodup_cons.mp hncons with ⟨hkn, _⟩
          exact fun hh => hkn (by simp [hh])
        refine ⟨k', p ++ [k], p', q', rfl, ?_, ?_, ?_, ?_, ?_⟩
        · rw [hsplit, hq]; simp
        · rw [hterase, hq]
        · exact hsub.trans (List.sublist_append_left p [k])
        · intro hm
          rcases List.mem_append.mp hm with hm | hm
          · exact hk'p hm
          · exact hk'k (by simpa using hm)
        · exact fun hm => hk'p (hsub.subset hm)

/-- C4: in `RawMap.keys` the successor key is fetched from the kernel
before the current key is yielded — every `yield k` event in the trace
is preceded by the `getNextKey(k)` fetch — and consequently, against
the stateful next-key kernel, deleting each yielded key immediately
after receiving it produces exactly the same key sequence as not
deleting at all. -/
theorem c4_prefetch_before_yield :
    (∀ (next : Option Buf → Option Buf) (start : Option Buf) (fuel i : Nat) (k : Buf),
      (RawMap.keysEvents next start fuel)[i]? = some (.yield k) →
      ∃ j, j < i ∧ (RawMap.keysEvents next start fuel)[j]? = some (.fetch (some k)))
    ∧ (∀ (s : List Buf) (start : Option Buf) (fuel : Nat), s.Nodup →
      RawMap.keysRunDelete s (kernelNextKey s start) fuel =
        RawMap.keysRun s (kernelNextKey s start) fuel) := by
  constructor
  · intro next start fuel i k h
    match i with
    | 0 => simp [RawMap.keysEvents] at h
    | (m + 1) =>
      rw [RawMap.keysEvents, List.getElem?_cons_succ] at h
      obtain ⟨j, hj, hjf⟩ := keysAux_yield_prefetch next fuel (next start) m k h
      refine ⟨j + 1, by omega, ?_⟩
      rw [RawMap.keysEvents, List.getElem?_cons_succ]
      exact hjf
  · intro s start fuel hs
    apply keysRunDelete_eq_aux s hs
    cases h : kernelNextKey s start with
    | none => exact Or.inl rfl
    | some k =>
      obtain ⟨p, q, hpq, hkp⟩ := kernelNextKey_decomp s hs start k h
      exact Or.inr ⟨k, p, p, q, rfl, hpq, hpq, List.Sublist.refl p, hkp, hkp⟩

/-- C4 witness: a concrete three-key map — the trace shows the fetch of
key 2's successor precedes yielding key 2, and deletion during
iteration yields the same keys. -/
theorem c4_prefetch_before_yield_witness :
    ((RawMap.keysEvents (kernelNextKey [[1], [2], [3]]) none 3)[4]? =
        some (.yield [2])
      ∧ ([[1], [2], [3]] : List Buf).Nodup) ∧
    (∃ j, j < 4 ∧ (RawMap.keysEvents (kernelNextKey [[1], [2], [3]]) none 3)[j]? =
        some (.fetch (some [2]))) ∧
    (RawMap.keysRunDelete [[1], [2], [3]] (kernelNextKey [[1], [2], [3]] none) 5 =
      RawMap.keysRun [[1], [2], [3]] (kernelNextKey [[1], [2], [3]] none) 5) :=
  ⟨⟨by decide, by decide⟩,
    c4_prefetch_before_yield.1 (kernelNextKey [[1], [2], [3]]) none 3 4 [2] (by decide),
    c4_prefetch_before_yield.2 [[1], [2], [3]] none 5 (by decide)⟩

/-! ## C9 / C10: `createMap` events and heap frame -/

theorem createMapRefT_heap (kern : Nat → Int) (s : CMState) (fd : Nat) :
    ((createMapRefT kern s fd).2).heap = s.heap := by
  unfold createMapRefT
  dsimp only
  split_ifs <;> rfl

theorem createMapRefT_events (kern : Nat → Int) (s : CMState) (fd : Nat) :
    ((createMapRefT kern s fd).2).events = s.events := by
  unfold createMapRefT
  dsimp only
  split_ifs <;> rfl

theorem finishCreate_heap (kern : Nat → Int) (s : CMState) (cid : Nat)
    (innerFd : Option Nat) : ((finishCreate kern s cid innerFd).2).heap = s.heap := by
  unfold finishCreate createMapRefT
  cases innerFd <;> (dsimp only; split_ifs <;> rfl)

theorem finishCreate_events (kern : Nat → Int) (s : CMState) (cid : Nat)
    (innerFd : Option Nat) :
    ((finishCreate kern s cid innerFd).2).events =
      s.events ++ [CreateEvent.create (s.heap.getD cid defaultObj)]
        ++ (match innerFd with
            | none => []
            | some f => [CreateEvent.closeInner f]) := by
  unfold finishCreate createMapRefT
  cases innerFd <;> (dsimp only; split_ifs <;> simp)

theorem setInner_events (s : CMState) (cid : Nat) (v : InnerV) :
    (setInner s cid v).events = s.events := rfl

theorem setInner_heap_ne (s : CMState) (cid : Nat) (v : InnerV) (i : Nat)
    (h : i ≠ cid) : ((setInner s cid v).heap)[i]? = s.heap[i]? := by
  unfold setInner
  exact List.getElem?_set_ne (Ne.symm h)

/-- Frame property of `createMapGo`: every heap object that existed when
the call started is untouched when it returns (success or failure); the
function only appends fresh copies and mutates those. -/
theorem createMapGo_frame (kern : Nat → Int) :
    ∀ (fuel : Nat) (s : CMState) (descId i : Nat), i < s.heap.length →
      ((createMapGo kern fuel s descId).2).heap[i]? = s.heap[i]? := by
  intro fuel
  induction fuel with
  | zero => intro s descId i hi; rfl
  | succ n ih =>
    intro s descId i hi
    have happget : (s.heap ++ [prepFlags (s.heap.getD descId defaultObj)])[i]?
        = s.heap[i]? := List.getElem?_append_left hi
    simp only [createMapGo]
    cases h1 : checkU32 (s.heap.getD descId defaultObj).keySize with
    | error e => simp [h1]
    | ok u1 =>
      cases h2 : checkU32 (s.heap.getD descId defaultObj).valueSize with
      | error e => simp [h1, h2]
      | ok u2 =>
        cases h3 : checkU32 (s.heap.getD descId defaultObj).maxEntries with
        | error e => simp [h1, h2, h3]
        | ok u3 =>
          simp only [h1, h2, h3]
          cases hin : (s.heap.getD descId defaultObj).innerMap with
          | absent =>
            simp only [hin]
            rw [finishCreate_heap]
            exact happget
          | num f =>
            simp only [hin]
            rw [finishCreate_heap]
            exact happget
          | ref f =>
            simp only [hin]
            rw [finishCreate_heap]
            rw [setInner_heap_ne _ _ _ _ (by omega)]
            exact happget
          | ptr pid =>
            simp only [hin]
            cases hrec : createMapGo kern n
                { s with heap := s.heap ++ [prepFlags (s.heap.getD descId defaultObj)] }
                pid with
            | mk res s2 =>
              have hs2 : s2.heap[i]? = s.heap[i]? := by
                have := ih { s with
                    heap := s.heap ++ [prepFlags (s.heap.getD descId defaultObj)] }
                  pid i (by simp; omega)
                rw [hrec] at this
                rw [this]
                exact happget
              cases res with
              | error e => simp [hrec, hs2]
              | ok f =>
                simp only [hrec]
                rw [finishCreate_heap]
                rw [setInner_heap_ne _ _ _ _ (by omega)]
                exact hs2

/-- C10: `createMap` never mutates the caller's `MapDef` (nor any other
pre-existing object, such as a nested inner definition): the initial
segment of the final heap is exactly the initial heap, on every path —
the flag derivation and inner-fd substitution are performed on the
freshly allocated copy only. -/
theorem c10_createMap_no_mutation (kern : Nat → Int) (heap : List MapDefObj)
    (descId fuel : Nat) :
    ((createMap kern heap descId fuel).2).heap.take heap.length = heap := by
  apply List.ext_getElem?
  intro i
  by_cases hi : i < heap.length
  · rw [List.getElem?_take, if_pos hi]
    exact createMapGo_frame kern fuel ⟨heap, [], 0⟩ descId i hi
  · rw [List.getElem?_take, if_neg hi]
    exact (List.getElem?_eq_none (by omega)).symm

/-- C9: when `createMap` is called on a descriptor whose `innerMap` is a
full nested definition, it first creates the inner map; if that
succeeds with descriptor `f`, the outer creation request carries
`innerMap = f`, and the transient inner handle is closed as the very
last event — after the outer creation attempt, whether it succeeded or
failed. -/
theorem c9_inner_map_transient_close
    (kern : Nat → Int) (fuel : Nat) (s : CMState) (descId pid f : Nat)
    (hptr : (s.heap.getD descId defaultObj).innerMap = .ptr pid)
    (hk : validU32 (s.heap.getD descId defaultObj).keySize)
    (hv : validU32 (s.heap.getD descId defaultObj).valueSize)
    (hm : validU32 (s.heap.getD descId defaultObj).maxEntries)
    (hok : (createMapGo kern fuel
      { s with heap := s.heap ++ [prepFlags (s.heap.getD descId defaultObj)] }
      pid).1 = .ok f) :
    ((createMapGo kern (fuel + 1) s descId).2).events =
      ((createMapGo kern fuel
        { s with heap := s.heap ++ [prepFlags (s.heap.getD descId defaultObj)] }
        pid).2).events
      ++ [CreateEvent.create
            { prepFlags (s.heap.getD descId defaultObj) with innerMap := .num f },
          CreateEvent.closeInner f] := by
  have e1 : checkU32 (s.heap.getD descId defaultObj).keySize
      = .ok (s.heap.getD descId defaultObj).keySize.num.toNat := by
    unfold checkU32; rw [if_pos hk]
  have e2 : checkU32 (s.heap.getD descId defaultObj).valueSize
      = .ok (s.heap.getD descId defaultObj).valueSize.num.toNat := by
    unfold checkU32; rw [if_pos hv]
  have e3 : checkU32 (s.heap.getD descId defaultObj).maxEntries
      = .ok (s.heap.getD descId defaultObj).maxEntries.num.toNat := by
    unfold checkU32; rw [if_pos hm]
  cases hrec : createMapGo kern fuel
      { s with heap := s.heap ++ [prepFlags (s.heap.getD descId defaultObj)] }
      pid with
  | mk res s2 =>
    rw [hrec] at hok
    simp only at hok
    subst hok
    -- the inner run left the copy at index `s.heap.length` untouched
    have hcopy : s2.heap[s.heap.length]? = some (prepFlags (s.heap.getD descId defaultObj)) := by
      have := createMapGo_frame kern fuel
        { s with heap := s.heap ++ [prepFlags (s.heap.getD descId defaultObj)] }
        pid s.heap.length (by simp)
      rw [hrec] at this
      rw [this]
      rw [List.getElem?_append_right (by omega)]
      simp
    have hlen : s.heap.length < s2.heap.length := by
      by_contra hle
      rw [List.getElem?_eq_none (by omega)] at hcopy
      cases hcopy
    have hreq : ((setInner s2 s.heap.length (.num f)).heap).getD s.heap.length defaultObj
        = { prepFlags (s.heap.getD descId defaultObj) with innerMap := .num f } := by
      rw [List.getD_eq_getElem?_getD]
      unfold setInner
      simp only
      rw [List.getElem?_set_eq_of_lt _ hlen]
      rw [List.getD_eq_getElem?_getD, hcopy]
      rfl
    simp only [createMapGo, e1, e2, e3, hptr, hrec]
    rw [finishCreate_events, setInner_events, hreq]
    simp

/-- Concrete inner/outer map definitions for the C9 witness. -/
def innerDef : MapDefObj := ⟨4, 4, 1, none, none, .absent⟩

def outerDef : MapDefObj := ⟨4, 4, 2, none, none, .ptr 1⟩

def s0 : CMState := ⟨[outerDef, innerDef], [], 0⟩

/-- C9 witness: creating the concrete outer map (heap index 0, inner
definition at index 1) under an always-succeeding kernel: the inner map
gets fd 0, the outer request carries `innerMap = 0`, and the inner
handle close is the final event. -/
theorem c9_inner_map_transient_close_witness :
    ((s0.heap.getD 0 defaultObj).innerMap = .ptr 1
      ∧ validU32 (s0.heap.getD 0 defaultObj).keySize
      ∧ (createMapGo (fun _ => 0) 1
          { s0 with heap := s0.heap ++ [prepFlags (s0.heap.getD 0 defaultObj)] }
          1).1 = .ok 0) ∧
    ((createMapGo (fun _ => 0) (1 + 1) s0 0).2).events =
      ((createMapGo (fun _ => 0) 1
        { s0 with heap := s0.heap ++ [prepFlags (s0.heap.getD 0 defaultObj)] }
        1).2).events
      ++ [CreateEvent.create
            { prepFlags (s0.heap.getD 0 defaultObj) with innerMap := .num 0 },
          CreateEvent.closeInner 0] :=
  ⟨⟨by decide, by decide, by decide⟩,
    c9_inner_map_transient_close (fun _ => 0) 1 s0 0 1 0
      (by decide) (by decide) (by decide) (by decide) (by decide)⟩

end NodeBpf
